import Mathlib

/-!
Shallow embedding of `src/print_on_steroids/print.py`: a leveled-print facade
around a console-rendering collaborator.  Pure string assembly is translated
directly; the caller frame (obtained in Python via `get_frame`) and the
wall-clock timestamp are passed as explicit inputs; dictionary lookups that can
raise `KeyError`, and `assert` statements, are modelled with `Except PyError`.
Each logging function returns the list of rendered lines it writes (the line
terminator `end` is written after the content and is not part of the modelled
content).
-/

/-- Python exceptions that the embedded code can raise. -/
inductive PyError where
  | keyError
  | assertionError
deriving DecidableEq

namespace LogLevel

/-- `LogLevel.color_map` (print.py lines 25-32), as a partial lookup. -/
def color_map (k : String) : Option String :=
  if k = "print" then some "default"
  else if k = "debug" then some "grey30"
  else if k = "info" then some "light_sky_blue3"
  else if k = "success" then some "dark_green"
  else if k = "warning" then some "dark_orange3"
  else if k = "error" then some "red"
  else none

/-- `LogLevel.repr_map` (print.py lines 33-40). -/
def repr_map (k : String) : Option String :=
  if k = "print" then some "PRINT"
  else if k = "debug" then some "DEBUG"
  else if k = "info" then some "INFO"
  else if k = "success" then some "SUCCESS"
  else if k = "warning" then some "WARNING"
  else if k = "error" then some "ERROR"
  else none

/-- `LogLevel.int_map` (print.py lines 41-48): numeric severity. -/
def int_map (k : String) : Option Int :=
  if k = "print" then some (-1)
  else if k = "debug" then some 0
  else if k = "info" then some 1
  else if k = "success" then some 2
  else if k = "warning" then some 3
  else if k = "error" then some 4
  else none

end LogLevel

/-- The fixed set of level names of the registry. -/
def levelNames : List String := ["print", "debug", "info", "success", "warning", "error"]

/-- Model of the rendering collaborator (rich console markup), one character
state machine: in the `true` state we are inside a style tag `[...]`, whose
characters are dropped from the rendered text; in the `false` state a backslash
escapes a following backslash or opening bracket, an unescaped `[` opens a tag,
and every other character is literal.  (Tags are simplified to any bracketed
run; the collaborator restricts tag syntax further, which no string built by
this module depends on.) -/
def renderAux : Bool → List Char → List Char
  | _, [] => []
  | true, c :: rest => if c = ']' then renderAux false rest else renderAux true rest
  | false, c :: rest =>
    if c = '\\' then
      match rest with
      | [] => ['\\']
      | d :: rest2 =>
        if d = '\\' then '\\' :: renderAux false rest2
        else if d = '[' then '[' :: renderAux false rest2
        else '\\' :: renderAux false (d :: rest2)
    else if c = '[' then renderAux true rest
    else c :: renderAux false rest

/-- Rendered (markup-free) text of a markup string. -/
def renderMarkup (s : String) : String := ⟨renderAux false s.data⟩

/-- `rich.markup.escape`: protect every markup-significant character of a
message so it is displayed literally — a backslash is doubled and an opening
bracket gets a backslash in front. -/
def escapeChars : List Char → List Char
  | [] => []
  | c :: rest =>
    if c = '\\' then '\\' :: '\\' :: escapeChars rest
    else if c = '[' then '\\' :: '[' :: escapeChars rest
    else c :: escapeChars rest

/-- String form of `escapeChars`, the `escape_markup` import of print.py. -/
def escape_markup (s : String) : String := ⟨escapeChars s.data⟩

/-- Model of `rich_print` (print.py lines 63-94): renders the markup of each
object and joins them with `sep`; the result is the content of the one line
written to the console. -/
def rich_print (objects : List String) (sep : String) : String :=
  String.intercalate sep (objects.map renderMarkup)

/-- Result of `extract_frame_info` (print.py lines 97-109) on the caller frame
returned by `get_frame(stack_offset)` — external data, passed as an input. -/
structure FrameInfo where
  line_no : Int
  function_name : String
  file_name : String
  path : String
deriving DecidableEq

/-- Python truthiness of an optional bool (`None` is falsy). -/
def pyTruthy (b : Option Bool) : Bool := b.getD false

/-- Python `rank != 0` where `rank` may be `None` (`None != 0` is true). -/
def pyNeZero (r : Option Int) : Bool :=
  match r with
  | none => true
  | some x => decide (x ≠ 0)

/-- Python `str()` of an optional string: `None` prints as `"None"`. -/
def pyStr (o : Option String) : String :=
  match o with
  | none => "None"
  | some s => s

/-- Python `str.upper()` (ASCII, as used on package names). -/
def pyUpper (s : String) : String := ⟨s.data.map Char.toUpper⟩

/-- Python `str.strip()` restricted to whitespace, as used on the info prefix. -/
def pyStrip (s : String) : String :=
  ⟨((s.data.dropWhile Char.isWhitespace).reverse.dropWhile Char.isWhitespace).reverse⟩

/-- Python `f"{s:<7}"`: left-justify in width 7. -/
def ljust7 (s : String) : String := s ++ ⟨List.replicate (7 - s.length) ' '⟩

/-- `timestamp_info` segment (print.py line 137). -/
def timestamp_info (print_time : Bool) (timestamp : String) : String :=
  if print_time then s!"[dim cyan]{timestamp} |[/] " else ""

/-- `level_info` segment (print.py line 138). -/
def level_info (print_level : Bool) (level_color level_name : String) : String :=
  if print_level then
    let padded := ljust7 level_name
    s!"[b {level_color}]{padded}[/] [dim cyan]|[/] "
  else ""

/-- `origin_info` segment (print.py line 139). -/
def origin_info (print_origin : Bool) (path : String) (line_no : Int) (function_name : String) : String :=
  if print_origin then
    s!"[cyan]{path}[/]:[cyan]{line_no}[/] - [dim cyan]{function_name}[/] [dim cyan]|[/] "
  else ""

/-- `rank_info` segment (print.py line 140): shown only when a rank is known
and the rank0 restriction is not in force. -/
def rank_info (rank : Option Int) (rank0_only : Option Bool) (level_color : String) : String :=
  match rank with
  | some r => if pyTruthy rank0_only then "" else s!"[b {level_color}]Rank {r}[/] [dim cyan]|[/]"
  | none => ""

/-- Keyword arguments of `print_on_steroids` (print.py lines 112-124); the
positional `values` are carried as their `str()` display strings. -/
structure PrintArgs where
  values : List String
  level : String
  rank : Option Int
  rank0_only : Option Bool
  print_time : Bool
  print_level : Bool
  print_origin : Bool
  sep : String
  endl : String
  escape : Bool
  stack_offset : Nat
deriving DecidableEq

/-- Embedding of `print_on_steroids` (print.py lines 112-152). -/
def print_on_steroids (a : PrintArgs) (frame : FrameInfo) (timestamp : String) :
    Except PyError (List String) :=
  if pyTruthy a.rank0_only && pyNeZero a.rank then .ok [] else
  let print_level := if a.level = "print" then false else a.print_level
  match LogLevel.color_map a.level, LogLevel.repr_map a.level with
  | some level_color, some level_name =>
    let info := timestamp_info a.print_time timestamp
      ++ level_info print_level level_color level_name
      ++ origin_info a.print_origin frame.path frame.line_no frame.function_name
      ++ rank_info a.rank a.rank0_only level_color
    let info := pyStrip info
    let message := String.intercalate a.sep a.values
    let message := if a.escape then escape_markup message else message
    let message := if info.length > 0 then info ++ " " ++ message else message
    .ok [rich_print [message] " "]
  | _, _ => .error .keyError

/-- Embedding of `namespace_print_on_steroids` (print.py lines 155-174).  The
`endl` terminator is accepted as in the source but is not part of the modelled
line content; `rich_print` is called with its default separator `" "`. -/
def namespace_print_on_steroids (values : List String) (ns : Option String)
    (level : String) (rank : Option Int) (rank0_only : Option Bool)
    (sep : String) (endl : String) (escape : Bool) : Except PyError (List String) :=
  if pyTruthy rank0_only && pyNeZero rank then .ok [] else
  match LogLevel.color_map level, LogLevel.repr_map level with
  | some level_color, some level_name =>
    let nss := pyStr ns
    let info := s!"[b {level_color}]{nss} [dim cyan]-[/] {level_name}[dim cyan]:[/]"
    let message := String.intercalate sep values
    let message := if escape then escape_markup message else message
    .ok [rich_print [info, message] " "]
  | _, _ => .error .keyError

/-- Facade state of `PrinterOnSteroids` (print.py lines 177-193). -/
structure PrinterOnSteroids where
  mode : String
  verbosity : String
  package_name : Option String
  rank : Option Int
  print_rank0_only : Bool
deriving DecidableEq

/-- Embedding of `PrinterOnSteroids.__init__` (print.py lines 178-193); `env`
models `os.getenv`.  A `"from_env"` mode is resolved through the environment
variable `<PACKAGE_NAME_UPPERCASE>_LOG_MODE`, defaulting to `"package"`; the
constructor asserts a package name is present but does not validate the
resolved value. -/
def PrinterOnSteroids.init (env : String → Option String) (mode verbosity : String)
    (package_name : Option String) (rank : Option Int) (print_rank0_only : Bool) :
    Except PyError PrinterOnSteroids :=
  if mode = "from_env" then
    match package_name with
    | none => .error .assertionError
    | some pn =>
      .ok ⟨(env (pyUpper pn ++ "_LOG_MODE")).getD "package", verbosity, package_name, rank, print_rank0_only⟩
  else .ok ⟨mode, verbosity, package_name, rank, print_rank0_only⟩

/-- Keyword arguments of `PrinterOnSteroids.log` (print.py lines 195-207). -/
structure LogArgs where
  values : List String
  level : String
  rank : Option Int
  rank0_only : Option Bool
  sep : String
  endl : String
  escape : Bool
  stack_offset : Nat
  print_time : Bool
  print_level : Bool
  print_origin : Bool
deriving DecidableEq

/-- Effective rank of a `log` call: the call-site override if given, else the
facade default (print.py lines 213-214). -/
def effRank (s : PrinterOnSteroids) (rank : Option Int) : Option Int :=
  match rank with
  | none => s.rank
  | some r => some r

/-- Effective rank0 restriction of a `log` call (print.py lines 215-216). -/
def effRank0Only (s : PrinterOnSteroids) (rank0_only : Option Bool) : Bool :=
  rank0_only.getD s.print_rank0_only

/-- The verbosity gate of `log` (print.py line 211): with a truthy (non-empty)
verbosity, compare the call's severity against the threshold, raising
`KeyError` when either name is outside the registry; a falsy verbosity skips
the check. -/
def verbosityGate (verbosity lvl : String) : Except PyError Bool :=
  if verbosity ≠ "" then
    match LogLevel.int_map lvl, LogLevel.int_map verbosity with
    | some li, some vi => .ok (decide (li < vi))
    | _, _ => .error .keyError
  else .ok false

/-- The dispatch of `log` after the silent and verbosity gates (print.py lines
213-236): resolve the effective rank and rank0 restriction, then in `"dev"`
mode delegate to `print_on_steroids` and in `"package"` mode delegate to
`namespace_print_on_steroids` for levels strictly above debug severity — the
source does not forward the `escape` flag there (line 235), so it is passed as
`false`. -/
def logDispatch (s : PrinterOnSteroids) (a : LogArgs) (frame : FrameInfo)
    (timestamp : String) : Except PyError (List String) :=
  if s.mode = "dev" then
    print_on_steroids
      ⟨a.values, a.level, effRank s a.rank, some (effRank0Only s a.rank0_only),
       a.print_time, a.print_level, a.print_origin, a.sep, a.endl, a.escape,
       a.stack_offset⟩ frame timestamp
  else if s.mode = "package" then
    match LogLevel.int_map a.level, LogLevel.int_map "debug" with
    | some li, some di =>
      if di < li then
        namespace_print_on_steroids a.values s.package_name a.level (effRank s a.rank)
          (some (effRank0Only s a.rank0_only)) a.sep a.endl false
      else .ok []
    | _, _ => .error .keyError
  else .ok []

/-- Embedding of `PrinterOnSteroids.log` (print.py lines 195-236).  Silent mode
is a no-op; a truthy verbosity drops levels strictly below the threshold; the
rest is `logDispatch`. -/
def PrinterOnSteroids.log (s : PrinterOnSteroids) (a : LogArgs) (frame : FrameInfo)
    (timestamp : String) : Except PyError (List String) :=
  if s.mode = "silent" then .ok [] else
  match verbosityGate s.verbosity a.level with
  | .error e => .error e
  | .ok true => .ok []
  | .ok false => logDispatch s a frame timestamp

/-- Keyword arguments shared by the per-level convenience operations
(print.py lines 238-392): everything of `LogArgs` except the level and the
stack offset, which each operation fixes itself. -/
structure ConvArgs where
  values : List String
  rank : Option Int
  rank0_only : Option Bool
  sep : String
  endl : String
  escape : Bool
  print_time : Bool
  print_level : Bool
  print_origin : Bool
deriving DecidableEq

/-- `PrinterOnSteroids.print` (print.py lines 238-262). -/
def PrinterOnSteroids.print (s : PrinterOnSteroids) (a : ConvArgs) (frame : FrameInfo)
    (timestamp : String) : Except PyError (List String) :=
  s.log ⟨a.values, "print", a.rank, a.rank0_only, a.sep, a.endl, a.escape, 3,
         a.print_time, a.print_level, a.print_origin⟩ frame timestamp

/-- `PrinterOnSteroids.debug` (print.py lines 264-288). -/
def PrinterOnSteroids.debug (s : PrinterOnSteroids) (a : ConvArgs) (frame : FrameInfo)
    (timestamp : String) : Except PyError (List String) :=
  s.log ⟨a.values, "debug", a.rank, a.rank0_only, a.sep, a.endl, a.escape, 3,
         a.print_time, a.print_level, a.print_origin⟩ frame timestamp

/-- `PrinterOnSteroids.info` (print.py lines 290-314). -/
def PrinterOnSteroids.info (s : PrinterOnSteroids) (a : ConvArgs) (frame : FrameInfo)
    (timestamp : String) : Except PyError (List String) :=
  s.log ⟨a.values, "info", a.rank, a.rank0_only, a.sep, a.endl, a.escape, 3,
         a.print_time, a.print_level, a.print_origin⟩ frame timestamp

/-- `PrinterOnSteroids.success` (print.py lines 316-340). -/
def PrinterOnSteroids.success (s : PrinterOnSteroids) (a : ConvArgs) (frame : FrameInfo)
    (timestamp : String) : Except PyError (List String) :=
  s.log ⟨a.values, "success", a.rank, a.rank0_only, a.sep, a.endl, a.escape, 3,
         a.print_time, a.print_level, a.print_origin⟩ frame timestamp

/-- `PrinterOnSteroids.warning` (print.py lines 342-366). -/
def PrinterOnSteroids.warning (s : PrinterOnSteroids) (a : ConvArgs) (frame : FrameInfo)
    (timestamp : String) : Except PyError (List String) :=
  s.log ⟨a.values, "warning", a.rank, a.rank0_only, a.sep, a.endl, a.escape, 3,
         a.print_time, a.print_level, a.print_origin⟩ frame timestamp

/-- `PrinterOnSteroids.error` (print.py lines 368-392). -/
def PrinterOnSteroids.error (s : PrinterOnSteroids) (a : ConvArgs) (frame : FrameInfo)
    (timestamp : String) : Except PyError (List String) :=
  s.log ⟨a.values, "error", a.rank, a.rank0_only, a.sep, a.endl, a.escape, 3,
         a.print_time, a.print_level, a.print_origin⟩ frame timestamp

/-- Embedding of `PrinterOnSteroids.config` (print.py lines 394-406): each
field is replaced exactly when the corresponding argument is supplied
(not `None`), otherwise kept. -/
def PrinterOnSteroids.config (s : PrinterOnSteroids) (mode verbosity package_name : Option String)
    (rank : Option Int) (print_rank0_only : Option Bool) : PrinterOnSteroids :=
  ⟨match mode with | none => s.mode | some m => m,
   match verbosity with | none => s.verbosity | some v => v,
   match package_name with | none => s.package_name | some p => some p,
   match rank with | none => s.rank | some r => some r,
   match print_rank0_only with | none => s.print_rank0_only | some b => b⟩

/-- `PrinterOnSteroids.set_rank` (print.py lines 408-409). -/
def PrinterOnSteroids.set_rank (s : PrinterOnSteroids) (rank : Int) : PrinterOnSteroids :=
  ⟨s.mode, s.verbosity, s.package_name, some rank, s.print_rank0_only⟩

/-- Embedding of `PrinterOnSteroids.set_mode` (print.py lines 411-416); `env`
models `os.getenv`.  `"from_env"` asserts a package name exists, resolves the
variable `<PACKAGE_NAME_UPPERCASE>_LOG_MODE` defaulting to `"package"`, and
asserts the resolved value is a concrete mode. -/
def PrinterOnSteroids.set_mode (s : PrinterOnSteroids) (mode : String)
    (env : String → Option String) : Except PyError PrinterOnSteroids :=
  if mode = "from_env" then
    match s.package_name with
    | none => .error .assertionError
    | some pn =>
      let resolved := (env (pyUpper pn ++ "_LOG_MODE")).getD "package"
      if resolved = "dev" ∨ resolved = "package" ∨ resolved = "silent" then
        .ok ⟨resolved, s.verbosity, s.package_name, s.rank, s.print_rank0_only⟩
      else .error .assertionError
  else .ok ⟨mode, s.verbosity, s.package_name, s.rank, s.print_rank0_only⟩

/-- A Python exception value: its class name and message. -/
structure PyException where
  cls : String
  msg : String
deriving DecidableEq

/-- Traceback data of a raised exception, as the source obtains it from
`e.__traceback__` (innermost frame) and `format_exception`. -/
structure TracebackInfo where
  frame : FrameInfo
  formatted_traceback : List String
  formatted_exception : String
deriving DecidableEq

/-- Observable outcome of a `graceful_exceptions` block: what was written, the
argument passed to the `on_exception` callback (if invoked), whether the
process was exited, and the exception re-raised (if any). -/
structure GEResult where
  outputs : List String
  callback_arg : Option PyException
  exited : Bool
  raised : Option PyException
deriving DecidableEq

/-- Embedding of `graceful_exceptions` (print.py lines 419-486).  `issub`
models Python's `issubclass` on exception class names; `handled_exceptions` is
the normalized list of handled classes; `body` is the outcome of the wrapped
block (`none` = normal completion); `tb` is the raised exception's traceback
data.  An exception whose class matches no handled class is re-raised before
any reporting; otherwise a rule line, the stripped traceback text, and a second
rule line are written, the callback is invoked, and the process exits when
`exitFlag` is set. -/
def graceful_exceptions (issub : String → String → Bool) (handled_exceptions : List String)
    (exitFlag : Bool) (extra_message : String) (body : Option PyException)
    (tb : TracebackInfo) : GEResult :=
  match body with
  | none => ⟨[], none, false, none⟩
  | some e =>
    if ¬ (handled_exceptions.any (fun exc => issub e.cls exc)) then ⟨[], none, false, some e⟩
    else
      let p := tb.frame.path
      let l := tb.frame.line_no
      let fn := tb.frame.function_name
      let oi := s!"[cyan]{p}[/]:[cyan]{l}[/] - [dim cyan]{fn}[/]"
      let exc_message := String.join (tb.formatted_traceback ++ [tb.formatted_exception])
      let prefixStr := if exitFlag then "" else "Caught "
      let em := if extra_message.length > 0 then s!"| {extra_message} " else ""
      let fe := tb.formatted_exception
      let title : String := s!"{prefixStr}{fe} | {oi} {em}"
      ⟨[s!"[b]↓[/] {title}[b]↓", rich_print [pyStrip exc_message] " ", s!"[b]↑[/] {title}[b]↑"],
       some e, exitFlag, none⟩

/-- The outputs written by a call that may also raise: an exception escapes
before anything is written, so it contributes no output. -/
def outputsOf : Except PyError (List String) → List String
  | .ok l => l
  | .error _ => []

/-! ## Helper lemmas -/

/-- A level name with a numeric severity is one of the six registry names. -/
lemma int_map_cases {v : String} {vi : Int} (h : LogLevel.int_map v = some vi) :
    v ∈ levelNames := by
  unfold LogLevel.int_map at h
  unfold levelNames
  split_ifs at h with h1 h2 h3 h4 h5 h6 <;> simp_all

/-- A level name with a numeric severity is truthy (non-empty). -/
lemma int_map_ne_empty {v : String} {vi : Int} (h : LogLevel.int_map v = some vi) :
    v ≠ "" := by
  have hm := int_map_cases h
  fin_cases hm <;> decide

/-- All three registry lookups succeed on every registry level name. -/
lemma registry_lookups_succeed {lvl : String} (h : lvl ∈ levelNames) :
    ∃ c r i, LogLevel.color_map lvl = some c ∧ LogLevel.repr_map lvl = some r ∧
      LogLevel.int_map lvl = some i := by
  fin_cases h <;> exact ⟨_, _, _, rfl, rfl, rfl⟩

/-- C1: with a configured verbosity threshold, a `log` call at a level of
strictly lower severity than the threshold produces no output and writes
nothing, regardless of the facade mode. -/
theorem log_below_threshold_is_noop (s : PrinterOnSteroids) (a : LogArgs)
    (fr : FrameInfo) (ts : String) (li vi : Int)
    (hl : LogLevel.int_map a.level = some li)
    (hv : LogLevel.int_map s.verbosity = some vi)
    (hlt : li < vi) :
    s.log a fr ts = .ok [] := by
  have hne : s.verbosity ≠ "" := int_map_ne_empty hv
  unfold PrinterOnSteroids.log verbosityGate
  by_cases hm : s.mode = "silent"
  · simp [hm]
  · simp [hm, hne, hl, hv, hlt]

/-- Witness for C1: a dev-mode facade with threshold `info` drops a `debug`
call. -/
theorem log_below_threshold_is_noop_witness :
    PrinterOnSteroids.log ⟨"dev", "info", none, none, false⟩
      ⟨["x"], "debug", none, none, " ", "\n", false, 2, true, true, true⟩
      ⟨1, "f", "a.py", "a.py"⟩ "2024-01-01 00:00:00" = .ok [] :=
  log_below_threshold_is_noop _ _ _ _ 0 1 rfl rfl (by decide)

/-- The rank0 gate of `print_on_steroids` (print.py line 125). -/
lemma print_on_steroids_rank_suppressed (a : PrintArgs) (fr : FrameInfo) (ts : String)
    (h1 : pyTruthy a.rank0_only = true) (h2 : pyNeZero a.rank = true) :
    print_on_steroids a fr ts = .ok [] := by
  unfold print_on_steroids
  simp [h1, h2]

/-- The rank0 gate of `namespace_print_on_steroids` (print.py line 165). -/
lemma namespace_rank_suppressed (v : List String) (ns : Option String) (lvl : String)
    (r : Option Int) (ro : Option Bool) (sep endl : String) (esc : Bool)
    (h1 : pyTruthy ro = true) (h2 : pyNeZero r = true) :
    namespace_print_on_steroids v ns lvl r ro sep endl esc = .ok [] := by
  unfold namespace_print_on_steroids
  simp [h1, h2]

/-- A `log` call whose effective rank0 restriction holds at a non-0 effective
rank writes nothing, whatever the mode and level. -/
lemma log_rank_suppressed (s : PrinterOnSteroids) (a : LogArgs) (fr : FrameInfo) (ts : String)
    (h1 : effRank0Only s a.rank0_only = true) (h2 : pyNeZero (effRank s a.rank) = true) :
    outputsOf (s.log a fr ts) = [] := by
  unfold PrinterOnSteroids.log
  by_cases hm : s.mode = "silent"
  · simp [hm, outputsOf]
  · simp only [if_neg hm]
    split
    · rfl
    · rfl
    · unfold logDispatch
      by_cases hd : s.mode = "dev"
      · rw [if_pos hd, h1, print_on_steroids_rank_suppressed]
        · rfl
        · rfl
        · exact h2
      · rw [if_neg hd]
        by_cases hp : s.mode = "package"
        · rw [if_pos hp]
          split
          · split
            · rw [h1, namespace_rank_suppressed]
              · rfl
              · rfl
              · exact h2
            · rfl
          · rfl
        · rw [if_neg hp]
          rfl

/-- C2: whenever the effective rank0 restriction is true and the effective rank
is not 0, no output is produced — for `print_on_steroids`,
`namespace_print_on_steroids`, `log`, and every per-level facade operation,
at every level and in every mode. -/
theorem rank0_restriction_suppresses_output :
    (∀ (a : PrintArgs) (fr : FrameInfo) (ts : String),
      pyTruthy a.rank0_only = true → pyNeZero a.rank = true →
      outputsOf (print_on_steroids a fr ts) = []) ∧
    (∀ (v : List String) (ns : Option String) (lvl : String) (r : Option Int)
      (ro : Option Bool) (sep endl : String) (esc : Bool),
      pyTruthy ro = true → pyNeZero r = true →
      outputsOf (namespace_print_on_steroids v ns lvl r ro sep endl esc) = []) ∧
    (∀ (s : PrinterOnSteroids) (a : LogArgs) (fr : FrameInfo) (ts : String),
      effRank0Only s a.rank0_only = true → pyNeZero (effRank s a.rank) = true →
      outputsOf (s.log a fr ts) = []) ∧
    (∀ (s : PrinterOnSteroids) (a : ConvArgs) (fr : FrameInfo) (ts : String),
      effRank0Only s a.rank0_only = true → pyNeZero (effRank s a.rank) = true →
      outputsOf (s.print a fr ts) = [] ∧ outputsOf (s.debug a fr ts) = [] ∧
      outputsOf (s.info a fr ts) = [] ∧ outputsOf (s.success a fr ts) = [] ∧
      outputsOf (s.warning a fr ts) = [] ∧ outputsOf (s.error a fr ts) = []) := by
  refine ⟨?_, ?_, ?_, ?_⟩
  · intro a fr ts h1 h2
    rw [print_on_steroids_rank_suppressed a fr ts h1 h2]
    rfl
  · intro v ns lvl r ro sep endl esc h1 h2
    rw [namespace_rank_suppressed v ns lvl r ro sep endl esc h1 h2]
    rfl
  · exact log_rank_suppressed
  · intro s a fr ts h1 h2
    exact ⟨log_rank_suppressed s _ fr ts h1 h2, log_rank_suppressed s _ fr ts h1 h2,
           log_rank_suppressed s _ fr ts h1 h2, log_rank_suppressed s _ fr ts h1 h2,
           log_rank_suppressed s _ fr ts h1 h2, log_rank_suppressed s _ fr ts h1 h2⟩

/-- Witness for C2, including the spec's Scenario 3: at rank 2 with the rank0
restriction in force, `error("fail")` emits nothing. -/
theorem rank0_restriction_suppresses_output_witness :
    outputsOf (print_on_steroids ⟨["fail"], "error", some 2, some true, false, true, false,
      " ", "\n", false, 1⟩ ⟨1, "f", "a.py", "a.py"⟩ "ts") = [] ∧
    outputsOf (PrinterOnSteroids.error ⟨"dev", "print", none, some 2, true⟩
      ⟨["fail"], none, none, " ", "\n", false, true, true, true⟩
      ⟨1, "f", "a.py", "a.py"⟩ "ts") = [] :=
  ⟨rank0_restriction_suppresses_output.1 _ _ _ (by decide) (by decide),
   (rank0_restriction_suppresses_output.2.2.2 ⟨"dev", "print", none, some 2, true⟩
     ⟨["fail"], none, none, " ", "\n", false, true, true, true⟩
     ⟨1, "f", "a.py", "a.py"⟩ "ts" (by decide) (by decide)).2.2.2.2.2⟩

/-- C3: in namespaced ("package") mode with namespace `svc` and a threshold
that admits warnings, `warning("oops")` emits exactly the rendered line
`"svc - WARNING: oops"` — a fixed `<namespace> - <LEVEL>:` prefix followed by
the message, with no timestamp and no source origin. -/
theorem namespaced_warning_exact_line (s : PrinterOnSteroids) (fr : FrameInfo)
    (ts : String) (vi : Int)
    (hm : s.mode = "package") (hn : s.package_name = some "svc")
    (hv : LogLevel.int_map s.verbosity = some vi) (hvle : vi ≤ 3)
    (hr0 : s.print_rank0_only = false) :
    s.warning ⟨["oops"], none, none, " ", "\n", false, true, true, true⟩ fr ts =
      .ok ["svc - WARNING: oops"] := by
  have hne := int_map_ne_empty hv
  have hnlt : ¬ ((3 : Int) < vi) := by omega
  unfold PrinterOnSteroids.warning PrinterOnSteroids.log verbosityGate logDispatch
  rw [hm]
  have h3 : LogLevel.int_map "warning" = some 3 := rfl
  simp only [h3, hv, hne, hnlt]
  norm_num
  rw [hn]
  have hro : effRank0Only s (none : Option Bool) = false := by
    simp [effRank0Only, hr0]
  rw [hro]
  unfold namespace_print_on_steroids
  simp [pyTruthy]
  rfl

/-- Witness for C3: the concrete facade of the spec's Scenario 2. -/
theorem namespaced_warning_exact_line_witness :
    PrinterOnSteroids.warning ⟨"package", "print", some "svc", none, false⟩
      ⟨["oops"], none, none, " ", "\n", false, true, true, true⟩
      ⟨1, "f", "a.py", "a.py"⟩ "ts" = .ok ["svc - WARNING: oops"] :=
  namespaced_warning_exact_line _ _ _ (-1) rfl rfl rfl (by decide) rfl

/-- C7: in namespaced ("package") mode, a `log` call at `print` or `debug`
severity writes nothing, even when the verbosity threshold (absent or any
registry level) would admit it. -/
theorem package_mode_drops_low_severity (s : PrinterOnSteroids) (a : LogArgs)
    (fr : FrameInfo) (ts : String)
    (hm : s.mode = "package")
    (hlev : a.level = "print" ∨ a.level = "debug")
    (hv : s.verbosity = "" ∨ ∃ vi, LogLevel.int_map s.verbosity = some vi) :
    s.log a fr ts = .ok [] := by
  unfold PrinterOnSteroids.log verbosityGate logDispatch
  rw [hm]
  rcases hlev with hl | hl <;> rw [hl]
  · rcases hv with hv | ⟨vi, hv⟩
    · simp [hv]
      rfl
    · have hne := int_map_ne_empty hv
      have hp : LogLevel.int_map "print" = some (-1) := rfl
      simp only [hp, hv, hne]
      cases h : decide ((-1 : Int) < vi) <;> simp [h, hne] <;> rfl
  · rcases hv with hv | ⟨vi, hv⟩
    · simp [hv]
      rfl
    · have hne := int_map_ne_empty hv
      have hp : LogLevel.int_map "debug" = some 0 := rfl
      simp only [hp, hv, hne]
      cases h : decide ((0 : Int) < vi) <;> simp [h, hne] <;> rfl

/-- Witness for C7: a package-mode facade with threshold `print` still drops a
`debug` call. -/
theorem package_mode_drops_low_severity_witness :
    PrinterOnSteroids.log ⟨"package", "print", some "pkg", none, false⟩
      ⟨["x"], "debug", none, none, " ", "\n", false, 2, true, true, true⟩
      ⟨1, "f", "a.py", "a.py"⟩ "ts" = .ok [] :=
  package_mode_drops_low_severity _ _ _ _ rfl (Or.inr rfl) (Or.inr ⟨-1, rfl⟩)

/-- C5: `config()` with no arguments changes nothing; in general each facade
field is updated exactly when its argument is supplied (not `None`) and is kept
unchanged otherwise. -/
theorem config_updates_exactly_supplied_fields :
    (∀ s : PrinterOnSteroids, s.config none none none none none = s) ∧
    (∀ (s : PrinterOnSteroids) (m v pn : Option String) (r : Option Int) (ro : Option Bool),
      (s.config m v pn r ro).mode = m.getD s.mode ∧
      (s.config m v pn r ro).verbosity = v.getD s.verbosity ∧
      (s.config m v pn r ro).package_name =
        (match pn with | none => s.package_name | some p => some p) ∧
      (s.config m v pn r ro).rank =
        (match r with | none => s.rank | some x => some x) ∧
      (s.config m v pn r ro).print_rank0_only = ro.getD s.print_rank0_only) := by
  constructor
  · intro s
    rfl
  · intro s m v pn r ro
    refine ⟨?_, ?_, ?_, ?_, ?_⟩ <;>
      cases m <;> cases v <;> cases pn <;> cases r <;> cases ro <;> rfl

/-- Successful `"from_env"` resolution of `set_mode`: a set environment
variable holding a concrete mode is installed as the facade mode. -/
lemma set_mode_from_env_ok (s : PrinterOnSteroids) (pn v : String)
    (env : String → Option String)
    (h : s.package_name = some pn) (he : env (pyUpper pn ++ "_LOG_MODE") = some v)
    (hv : v = "dev" ∨ v = "package" ∨ v = "silent") :
    s.set_mode "from_env" env =
      .ok ⟨v, s.verbosity, s.package_name, s.rank, s.print_rank0_only⟩ := by
  unfold PrinterOnSteroids.set_mode
  rw [h]
  simp [he, hv]

/-- C6: `set_mode("from_env")` resolves the mode from the environment variable
`<PACKAGE_NAME_UPPERCASE>_LOG_MODE`: it fails with an assertion error when no
package name was ever set or when the resolved value is not a concrete mode,
defaults to `"package"` when the variable is unset, and otherwise installs the
resolved mode — in particular with `MYPKG_LOG_MODE="silent"` and package name
`"mypkg"` the facade becomes silent and a subsequent `info` call emits
nothing. -/
theorem set_mode_from_env_resolution :
    (∀ (s : PrinterOnSteroids) (env : String → Option String),
      s.package_name = none →
      s.set_mode "from_env" env = .error .assertionError) ∧
    (∀ (s : PrinterOnSteroids) (pn : String) (env : String → Option String),
      s.package_name = some pn → env (pyUpper pn ++ "_LOG_MODE") = none →
      s.set_mode "from_env" env =
        .ok ⟨"package", s.verbosity, s.package_name, s.rank, s.print_rank0_only⟩) ∧
    (∀ (s : PrinterOnSteroids) (pn v : String) (env : String → Option String),
      s.package_name = some pn → env (pyUpper pn ++ "_LOG_MODE") = some v →
      v ≠ "dev" → v ≠ "package" → v ≠ "silent" →
      s.set_mode "from_env" env = .error .assertionError) ∧
    (∀ (s : PrinterOnSteroids) (pn v : String) (env : String → Option String),
      s.package_name = some pn → env (pyUpper pn ++ "_LOG_MODE") = some v →
      (v = "dev" ∨ v = "package" ∨ v = "silent") →
      s.set_mode "from_env" env =
        .ok ⟨v, s.verbosity, s.package_name, s.rank, s.print_rank0_only⟩) ∧
    (∀ (s : PrinterOnSteroids) (env : String → Option String),
      s.package_name = some "mypkg" → env "MYPKG_LOG_MODE" = some "silent" →
      s.set_mode "from_env" env =
        .ok ⟨"silent", s.verbosity, s.package_name, s.rank, s.print_rank0_only⟩) ∧
    (∀ (s : PrinterOnSteroids) (a : ConvArgs) (fr : FrameInfo) (ts : String),
      s.mode = "silent" → s.info a fr ts = .ok []) := by
  refine ⟨?_, ?_, ?_, ?_, ?_, ?_⟩
  · intro s env h
    unfold PrinterOnSteroids.set_mode
    rw [h]
    rfl
  · intro s pn env h he
    unfold PrinterOnSteroids.set_mode
    rw [h]
    simp [he]
  · intro s pn v env h he h1 h2 h3
    unfold PrinterOnSteroids.set_mode
    rw [h]
    simp [he, h1, h2, h3]
  · exact set_mode_from_env_ok
  · intro s env h he
    have hk : (pyUpper "mypkg" ++ "_LOG_MODE") = "MYPKG_LOG_MODE" := by decide
    exact set_mode_from_env_ok s "mypkg" "silent" env h (by rw [hk, he]) (by simp)
  · intro s a fr ts h
    unfold PrinterOnSteroids.info PrinterOnSteroids.log
    simp [h]

/-- Witness for C6: the spec's Scenario 4, run end to end on a concrete facade
and environment. -/
theorem set_mode_from_env_resolution_witness :
    PrinterOnSteroids.set_mode ⟨"dev", "print", some "mypkg", none, false⟩ "from_env"
        (fun k => if k = "MYPKG_LOG_MODE" then some "silent" else none) =
      .ok ⟨"silent", "print", some "mypkg", none, false⟩ ∧
    PrinterOnSteroids.info ⟨"silent", "print", some "mypkg", none, false⟩
      ⟨["x"], none, none, " ", "\n", false, true, true, true⟩
      ⟨1, "f", "a.py", "a.py"⟩ "ts" = .ok [] :=
  ⟨set_mode_from_env_resolution.2.2.2.2.1 _ _ rfl (by decide),
   set_mode_from_env_resolution.2.2.2.2.2 _ _ _ _ rfl⟩

/-- `print_on_steroids` succeeds (never raises) on every registry level. -/
lemma print_on_steroids_ok (a : PrintArgs) (fr : FrameInfo) (ts : String)
    (h : a.level ∈ levelNames) : ∃ out, print_on_steroids a fr ts = .ok out := by
  obtain ⟨c, r, i, hc, hr, _⟩ := registry_lookups_succeed h
  unfold print_on_steroids
  by_cases hg : (pyTruthy a.rank0_only && pyNeZero a.rank) = true
  · rw [if_pos hg]
    exact ⟨[], rfl⟩
  · rw [if_neg hg, hc, hr]
    exact ⟨_, rfl⟩

/-- `namespace_print_on_steroids` succeeds on every registry level. -/
lemma namespace_print_on_steroids_ok (v : List String) (ns : Option String)
    (lvl : String) (r : Option Int) (ro : Option Bool) (sep endl : String) (esc : Bool)
    (h : lvl ∈ levelNames) :
    ∃ out, namespace_print_on_steroids v ns lvl r ro sep endl esc = .ok out := by
  obtain ⟨c, rp, i, hc, hr, _⟩ := registry_lookups_succeed h
  unfold namespace_print_on_steroids
  by_cases hg : (pyTruthy ro && pyNeZero r) = true
  · rw [if_pos hg]
    exact ⟨[], rfl⟩
  · rw [if_neg hg, hc, hr]
    exact ⟨_, rfl⟩

/-- The verbosity gate succeeds when the threshold is falsy or a registry
level and the call level is a registry level. -/
lemma verbosityGate_ok (verbosity lvl : String) (hl : lvl ∈ levelNames)
    (hv : verbosity = "" ∨ verbosity ∈ levelNames) :
    ∃ b, verbosityGate verbosity lvl = .ok b := by
  obtain ⟨_, _, il, _, _, hil⟩ := registry_lookups_succeed hl
  unfold verbosityGate
  rcases hv with hv | hv
  · rw [hv]
    exact ⟨false, rfl⟩
  · obtain ⟨_, _, iv, _, _, hiv⟩ := registry_lookups_succeed hv
    have hne := int_map_ne_empty hiv
    rw [if_pos hne, hil, hiv]
    exact ⟨_, rfl⟩

/-- The dispatch of `log` succeeds on every registry level, whatever the mode
and the optional configuration. -/
lemma logDispatch_ok (s : PrinterOnSteroids) (a : LogArgs) (fr : FrameInfo) (ts : String)
    (hl : a.level ∈ levelNames) : ∃ out, logDispatch s a fr ts = .ok out := by
  unfold logDispatch
  by_cases hd : s.mode = "dev"
  · rw [if_pos hd]
    exact print_on_steroids_ok _ fr ts hl
  rw [if_neg hd]
  by_cases hp : s.mode = "package"
  · rw [if_pos hp]
    obtain ⟨_, _, il, _, _, hil⟩ := registry_lookups_succeed hl
    have hdbg : LogLevel.int_map "debug" = some 0 := rfl
    rw [hil, hdbg]
    by_cases hlt : (0 : Int) < il
    · simp only [hlt, if_true]
      exact namespace_print_on_steroids_ok _ _ _ _ _ _ _ _ hl
    · simp only [hlt, if_false]
      exact ⟨[], rfl⟩
  · rw [if_neg hp]
    exact ⟨[], rfl⟩

/-- `log` succeeds on every registry level under a falsy or registry-level
verbosity, whatever the mode and the optional configuration. -/
lemma log_ok (s : PrinterOnSteroids) (a : LogArgs) (fr : FrameInfo) (ts : String)
    (hl : a.level ∈ levelNames) (hv : s.verbosity = "" ∨ s.verbosity ∈ levelNames) :
    ∃ out, s.log a fr ts = .ok out := by
  unfold PrinterOnSteroids.log
  by_cases hm : s.mode = "silent"
  · rw [if_pos hm]
    exact ⟨[], rfl⟩
  rw [if_neg hm]
  obtain ⟨b, hb⟩ := verbosityGate_ok s.verbosity a.level hl hv
  rw [hb]
  cases b
  · exact logDispatch_ok s a fr ts hl
  · exact ⟨[], rfl⟩

/-- C8 (amended): ordinary logging calls never raise — for a level from the
fixed set and a falsy or registry-level verbosity, `log` returns normally in
every mode and configuration; a missing rank omits the rank segment; a missing
namespace, however, does not drop the segment: it behaves exactly as if the
namespace were the literal string "None". -/
theorem ordinary_logging_never_raises :
    (∀ (s : PrinterOnSteroids) (a : LogArgs) (fr : FrameInfo) (ts : String),
      a.level ∈ levelNames → (s.verbosity = "" ∨ s.verbosity ∈ levelNames) →
      ∃ out, s.log a fr ts = .ok out) ∧
    (∀ (ro : Option Bool) (c : String), rank_info none ro c = "") ∧
    (∀ (v : List String) (lvl : String) (r : Option Int) (ro : Option Bool)
      (sep endl : String) (esc : Bool),
      namespace_print_on_steroids v none lvl r ro sep endl esc =
        namespace_print_on_steroids v (some "None") lvl r ro sep endl esc) :=
  ⟨log_ok, fun _ _ => rfl, fun _ _ _ _ _ _ _ => rfl⟩

/-- Witness for C8 (amended): a concrete `success` call on a facade with no
rank, no namespace and falsy verbosity returns normally. -/
theorem ordinary_logging_never_raises_witness :
    ∃ out, PrinterOnSteroids.log ⟨"dev", "", none, none, false⟩
      ⟨["x"], "success", none, none, " ", "\n", false, 2, true, true, true⟩
      ⟨1, "f", "a.py", "a.py"⟩ "ts" = .ok out :=
  ordinary_logging_never_raises.1 _ _ _ _ (by decide) (Or.inl rfl)

/-- C8 (counterexample): with no namespace configured, a package-mode `info`
call does not omit the namespace segment — the emitted line starts with the
literal text "None". -/
theorem missing_namespace_rendered_as_none :
    PrinterOnSteroids.log ⟨"package", "print", none, none, false⟩
      ⟨["x"], "info", none, none, " ", "\n", false, 2, true, true, true⟩
      ⟨1, "f", "a.py", "a.py"⟩ "ts" = .ok ["None - INFO: x"] ∧
    ("None - INFO: x" ≠ "INFO: x") :=
  ⟨rfl, by decide⟩

/-- C9: an exception whose class matches no handled class is re-raised as the
very same value, with no rule lines, no traceback print, no callback and no
process exit. -/
theorem unhandled_exception_reraised_unmodified (issub : String → String → Bool)
    (handled : List String) (exitFlag : Bool) (em : String) (e : PyException)
    (tb : TracebackInfo)
    (h : ∀ c ∈ handled, issub e.cls c = false) :
    graceful_exceptions issub handled exitFlag em (some e) tb =
      ⟨[], none, false, some e⟩ := by
  unfold graceful_exceptions
  have hany : handled.any (fun exc => issub e.cls exc) = false := by
    rw [List.any_eq_false]
    intro x hx
    simp [h x hx]
  simp [hany]

/-- Witness for C9: a `KeyError` is not a `ValueError`, so the block re-raises
it untouched and reports nothing. -/
theorem unhandled_exception_reraised_unmodified_witness :
    graceful_exceptions (fun a b => a == b) ["ValueError"] true "rank 3"
      (some ⟨"KeyError", "missing"⟩)
      ⟨⟨3, "g", "b.py", "b.py"⟩, ["tb line"], "KeyError: missing"⟩ =
      ⟨[], none, false, some ⟨"KeyError", "missing"⟩⟩ :=
  unhandled_exception_reraised_unmodified _ _ _ _ _ _ (by decide)

/-- Every markup string escaped by the collaborator's escape renders back to
exactly the original literal text. -/
lemma renderAux_escapeChars (cs : List Char) : renderAux false (escapeChars cs) = cs := by
  induction cs with
  | nil => rfl
  | cons c rest ih =>
    by_cases h1 : c = '\\'
    · subst h1
      simp [escapeChars, renderAux, ih]
    · by_cases h2 : c = '['
      · subst h2
        simp [escapeChars, renderAux, ih]
      · rw [escapeChars]
        rw [if_neg h1, if_neg h2]
        rw [renderAux.eq_def]
        simp only [if_neg h1, if_neg h2, ih]

/-- String form of the escape/render round trip. -/
lemma render_escape_roundtrip (m : String) : renderMarkup (escape_markup m) = m := by
  unfold renderMarkup escape_markup
  rw [renderAux_escapeChars]

/-- C4 (code bug evaluation): the facade in package mode drops the caller's
`escape=true` flag when delegating (print.py line 235), so message markup is
interpreted ("boom") instead of displayed literally — although the
collaborator's escape/render round trip is exact and a direct
`namespace_print_on_steroids` call with `escape=true` does display the
original characters, as does dev mode through the facade. -/
theorem package_mode_drops_escape_flag :
    PrinterOnSteroids.log ⟨"package", "print", some "pkg", none, false⟩
      ⟨["[red]boom[/]"], "info", none, none, " ", "\n", true, 2, true, true, true⟩
      ⟨1, "f", "a.py", "a.py"⟩ "ts" = .ok ["pkg - INFO: boom"] ∧
    namespace_print_on_steroids ["[red]boom[/]"] (some "pkg") "info" none (some false)
      " " "\n" true = .ok ["pkg - INFO: [red]boom[/]"] ∧
    PrinterOnSteroids.log ⟨"dev", "print", some "pkg", none, false⟩
      ⟨["[red]boom[/]"], "print", none, none, " ", "\n", true, 2, false, true, false⟩
      ⟨1, "f", "a.py", "a.py"⟩ "ts" = .ok ["[red]boom[/]"] ∧
    (∀ m : String, renderMarkup (escape_markup m) = m) ∧
    "pkg - INFO: boom" ≠ "pkg - INFO: [red]boom[/]" :=
  ⟨rfl, rfl, rfl, render_escape_roundtrip, by decide⟩

/-- C10: `print_on_steroids` forces the level toggle off for the `print`
level, so the output is identical to a call with `print_level=false` even when
the caller passes `print_level=true`; with the other prefix segments off the
line is exactly the rendered message, with no level label at all. -/
theorem print_level_label_forced_off :
    (∀ (a : PrintArgs) (fr : FrameInfo) (ts : String), a.level = "print" →
      print_on_steroids a fr ts =
        print_on_steroids ⟨a.values, a.level, a.rank, a.rank0_only, a.print_time, false,
          a.print_origin, a.sep, a.endl, a.escape, a.stack_offset⟩ fr ts) ∧
    (∀ (v : List String) (sep endl : String) (fr : FrameInfo) (ts : String),
      print_on_steroids ⟨v, "print", none, none, false, true, false, sep, endl, false, 1⟩ fr ts =
        .ok [renderMarkup (String.intercalate sep v)]) := by
  constructor
  · intro a fr ts h
    unfold print_on_steroids
    simp [h]
  · intro v sep endl fr ts
    rfl

/-- Witness for C10: a concrete `print`-level call with `print_level=true`
produces the same line as with `print_level=false`. -/
theorem print_level_label_forced_off_witness :
    print_on_steroids ⟨["hi"], "print", none, none, false, true, false, " ", "\n", false, 1⟩
      ⟨1, "f", "a.py", "a.py"⟩ "ts" =
    print_on_steroids ⟨["hi"], "print", none, none, false, false, false, " ", "\n", false, 1⟩
      ⟨1, "f", "a.py", "a.py"⟩ "ts" :=
  print_level_label_forced_off.1 _ _ _ rfl
